import Mathlib

set_option maxHeartbeats 1000000

/-!
Shallow embedding of the content-generation workflow repository:
the LangGraph workflow (src/workflow/graph.py), the web API layer
(src/webapi/api.py, src/webapi/models.py) and the runtime configuration
(src/config.py), together with theorems settling the specification
claims about routing, failure handling, event streaming, validation
and state invariants.
-/

namespace ContentWorkflow

/- ## Python-style string helpers

These model the Python string operations used by the source
(`str.lower`, `str.strip`, substring membership via `in`,
`str.split(sep, 1)`, truthiness of `x or y` chains). -/

def pyLower (s : String) : String := String.mk (s.data.map Char.toLower)

def pyStrip (s : String) : String :=
  String.mk (((s.data.dropWhile Char.isWhitespace).reverse.dropWhile Char.isWhitespace).reverse)

/-- Is `needle` a prefix of `hay`?  (structural helper for substring search,
kept kernel-reducible on purpose). -/
def startsWithChars : List Char → List Char → Bool
  | [], _ => true
  | _ :: _, [] => false
  | n :: ns, h :: hs => (n == h) && startsWithChars ns hs

/-- Does `needle` occur anywhere in the character list? -/
def containsSub (needle : List Char) : List Char → Bool
  | [] => needle.isEmpty
  | c :: rest => startsWithChars needle (c :: rest) || containsSub needle rest

/-- The characters after the first occurrence of `needle` (`none` if absent). -/
def afterSub (needle : List Char) : List Char → Option (List Char)
  | [] => none
  | c :: rest =>
    if startsWithChars needle (c :: rest) then some ((c :: rest).drop needle.length)
    else afterSub needle rest

/-- The characters before the first occurrence of `needle`
(the whole list if absent). -/
def beforeSub (needle : List Char) : List Char → List Char
  | [] => []
  | c :: rest =>
    if startsWithChars needle (c :: rest) then []
    else c :: beforeSub needle rest

/-- Split a character list at every occurrence of `sep` (Python
`str.splitlines` for `sep = newline`). -/
def splitOnChar (sep : Char) : List Char → List (List Char)
  | [] => [[]]
  | c :: rest =>
    let r := splitOnChar sep rest
    if c == sep then [] :: r
    else
      match r with
      | [] => [[c]]
      | h :: t => (c :: h) :: t

/-- Python `needle in hay` for strings. -/
def strContains (hay needle : String) : Bool := containsSub needle.data hay.data

/-- Python `t.split(sep, 1)[1]` when `sep` occurs in `t` (else `none`). -/
def pySplitOnce (t sep : String) : Option String :=
  (afterSub sep.data t.data).map String.mk

/-- The part of `t` before the first occurrence of `sep` (all of `t` if absent). -/
def pyBeforeFirst (t sep : String) : String := String.mk (beforeSub sep.data t.data)

/-- Python slicing `s[:n]`. -/
def pyTake (n : Nat) (s : String) : String := String.mk (s.data.take n)

/-- Python `a or b` on strings: the empty string is falsy. -/
def pyOrStr (a b : String) : String := if a = "" then b else a

/-- Python `a or b` where `a` is `None`-able: `None` and `""` are falsy. -/
def pyOptOr (a : Option String) (b : String) : String := pyOrStr (a.getD "") b

/-- Python truthiness of an optional string. -/
def optTruthy (a : Option String) : Bool :=
  match a with
  | some s => !(s == "")
  | none => false

/-- Python `str(bool)` as it appears inside f-strings. -/
def pyBool (b : Bool) : String := if b then "True" else "False"

/-- Python `d[k] = v` on an (insertion-ordered) dict modelled as an assoc list. -/
def dictSet (d : List (String × String)) (k v : String) : List (String × String) :=
  if d.any (fun p => p.1 == k) then d.map (fun p => if p.1 == k then (k, v) else p)
  else d ++ [(k, v)]

/- ## Data model (src/workflow/graph.py, WorkflowState) -/

/-- LangChain message roles used by the workflow
(HumanMessage / SystemMessage / AIMessage). -/
inductive Role
  | human
  | system
  | ai
  deriving DecidableEq, Repr

/-- One entry of the LangGraph `messages` history. -/
structure Msg where
  role : Role
  content : String
  deriving DecidableEq, Repr

/-- `WorkflowState(MessagesState)` from src/workflow/graph.py.
A missing `assistant_response` is encoded as `""`
(the source only tests it through Python truthiness, where `None`
and `""` behave identically). -/
structure WorkflowState where
  messages : List Msg
  human_request : String
  human_comment : Option String
  status : Option String
  assistant_response : String
  ideation_brief : Option String
  content_result : Option String
  compliance_reports : Option (List (String × String))
  deriving DecidableEq, Repr

/-- The input state the API seeds at session creation
(`input_state = {"human_request": run_data["human_request"]}` in
src/webapi/api.py). -/
def initial_state (human_request : String) : WorkflowState :=
  { messages := []
    human_request := human_request
    human_comment := none
    status := none
    assistant_response := ""
    ideation_brief := none
    content_result := none
    compliance_reports := none }

/- ## Runtime configuration (src/config.py) -/

/-- `GenerationConfig` from src/config.py.  The source field
`video_aspect_ratio` is embedded as `video_aspect`. -/
structure GenerationConfig where
  video_duration : Int
  video_aspect : String
  enable_captions : Bool
  caption_style : String
  image_size : String
  image_quality : String
  auto_compliance_check : Bool
  deriving DecidableEq, Repr

/-- `ASPECT_RATIO_OPTIONS` (the `size` component) from src/config.py. -/
def ASPECT_RATIO_SIZES : List (String × String) :=
  [("16:9", "1920x1080"), ("9:16", "1080x1920"), ("1:1", "1080x1080"),
   ("4:5", "1080x1350"), ("21:9", "2560x1080")]

/-- The `video_resolution` property of `GenerationConfig`. -/
def GenerationConfig.video_resolution (c : GenerationConfig) : String :=
  (ASPECT_RATIO_SIZES.lookup c.video_aspect).getD "1920x1080"

/-- The dataclass defaults of `GenerationConfig`. -/
def default_config : GenerationConfig :=
  { video_duration := 10
    video_aspect := "16:9"
    enable_captions := false
    caption_style := "professional"
    image_size := "1024x1024"
    image_quality := "hd"
    auto_compliance_check := false }

/- ## Routers (src/workflow/graph.py lines 518-560) -/

/-- The normalisation `(state.get("status") or "").strip().lower()`
applied by both routers and by `social_post_node`. -/
def normAction (st : Option String) : String := pyLower (pyStrip (st.getD ""))

/-- `router_after_ideation` from src/workflow/graph.py. -/
def router_after_ideation (st : Option String) : String :=
  let action := normAction st
  if action = "approve_ideation" then "content_generation_node"
  else "ideation_node"

/-- `router_after_content` from src/workflow/graph.py. -/
def router_after_content (st : Option String) : String :=
  let action := normAction st
  if action = "approve_content" then "node_to_terminate"
  else if action = "run_policy" then "policy_review_node"
  else if action = "run_design" then "design_review_node"
  else if action = "run_caption" then "caption_generation_node"
  else if action = "post_linkedin" then "social_post_node"
  else if action = "post_social_facebook" then "social_post_node"
  else if action = "post_social_instagram" then "social_post_node"
  else "ideation_node"

/-- The explicitly-handled action labels of `router_after_content`. -/
def KNOWN_CONTENT_ACTIONS : List String :=
  ["approve_content", "run_policy", "run_design", "run_caption",
   "post_linkedin", "post_social_facebook", "post_social_instagram"]

/-- The target map of `builder.add_conditional_edges("feedback_content", ...)`
(src/workflow/graph.py lines 596-608): a router result outside this list
would be a "no route" error in LangGraph. -/
def FEEDBACK_CONTENT_EDGE_TARGETS : List String :=
  ["node_to_terminate", "ideation_node", "policy_review_node",
   "design_review_node", "caption_generation_node", "linkedin_post_node",
   "social_post_node"]

/-- The unconditional edges of the graph
(src/workflow/graph.py lines 582-617). -/
def static_edges : List (String × String) :=
  [("START", "ideation_node"),
   ("ideation_node", "feedback_ideation"),
   ("content_generation_node", "feedback_content"),
   ("policy_review_node", "feedback_content"),
   ("design_review_node", "feedback_content"),
   ("caption_generation_node", "feedback_content"),
   ("linkedin_post_node", "feedback_content"),
   ("social_post_node", "feedback_content"),
   ("node_to_terminate", "END")]

/- ## Node prompts (src/workflow/graph.py) -/

/-- The revision system prompt built by `ideation_node` when feedback is
present (src/workflow/graph.py lines 93-110); the human comment is folded
into it as revision instructions. -/
def ideation_revision_prompt (comment : String) : String :=
  "\nYou are an AI assistant revising your previous draft. \n\nFEEDBACK FROM HUMAN: \"" ++ comment ++ "\"\n\nCarefully incorporate this feedback into your response. Address all comments, \ncorrections, or suggestions. Ensure your revised response fully integrates \nthe feedback, improves clarity, and resolves any issues raised.\n\nThen, conclude your reply with a clearly marked section:\n\nGENERATION_PROMPT:\n[Write a concise, self-contained prompt the content generator can use directly to create image/video and caption.\nInclude: target platform(s), content type(s) (image/video), tone/style, key visual details, messaging,\nand any constraints such as duration/aspect ratio hints. Avoid mentioning that this is a prompt.]\n\nDO NOT repeat the feedback verbatim in your response.\n"

/-- The generic system prompt of `ideation_node`
(src/workflow/graph.py lines 119-133). -/
def IDEATION_GENERIC_PROMPT : String :=
  "\nYou are an AI assistant. Your goal is to fully understand and fulfill the user\x27s \nrequest by preparing a relevant, clear, and helpful draft reply. Focus on addressing \nthe user\x27s needs directly and comprehensively. \nAsk brief clarifying questions only if absolutely necessary.\n\nThen, conclude your reply with a clearly marked section:\n\nGENERATION_PROMPT:\n[Write a concise, self-contained prompt the content generator can use directly to create image/video and caption.\nInclude: target platform(s), content type(s) (image/video), tone/style, key visual details, messaging,\nand any constraints such as duration/aspect ratio hints. Avoid mentioning that this is a prompt.]\n\nDo not reference any previous human feedback at this stage.\n"

/-- The user input `content_generation_node` sends to the content agent
(src/workflow/graph.py lines 170-180). -/
def content_user_input (brief : String) : String :=
  "\nUsing the following ideation brief, generate EXACTLY ONE media asset using the appropriate tool (generate_image or generate_video).\n- If ambiguous, DEFAULT TO IMAGE.\n- Do NOT generate captions in this step.\n\nThen extract the media URL from the tool output and REPLY WITH THE URL ONLY\n(no extra words, no markdown, no local path). If multiple URLs are present, return only the primary one.\n\nIDEATION_BRIEF:\n" ++ brief ++ "\n"

/-- The prompt `policy_review_node` sends to the policy agent. -/
def policy_prompt (content : String) : String :=
  "Run policy compliance review on the following generated content (description/text):\n\n" ++ content ++ "\n\nProvide the full structured policy compliance report.\n"

/-- The prompt `design_review_node` sends to the design agent. -/
def design_prompt (content : String) : String :=
  "Run design compliance review for the following content (image/video/caption description):\n\n" ++ content ++ "\n\nProvide the full structured design compliance report.\n"

/-- The prompt `caption_generation_node` sends to the caption agent. -/
def caption_prompt (content : String) : String :=
  "Generate a platform-optimized caption for the following content description.\nIf platform or style are implied in the description, optimize accordingly.\n\nCONTENT:\n" ++ content ++ "\n\nReturn the caption output in the tool\x27s expected format."

/- ## Nodes (src/workflow/graph.py lines 81-513)

Collaborator calls (language model, agents, HTTP download, platform
posting) are passed in as functions returning `Except String` values:
`Except.error e` models a raised exception with message `str(e) = e`.
A node whose Python body contains no try/except is itself
`Except`-valued (the exception propagates out of the node); a node
that catches exceptions is a total function. -/

/-- The Python value
`state.get("content_result") or state.get("assistant_response") or state.get("human_request") or ""`
used by the review, caption and posting nodes. -/
def contentOrFallback (s : WorkflowState) : String :=
  pyOptOr s.content_result (pyOrStr s.assistant_response (pyOrStr s.human_request ""))

/-- The `(state.get("status") or "approved").lower()` normalisation at the
top of `ideation_node`. -/
def ideation_status (s : WorkflowState) : String := pyLower (pyOptOr s.status "approved")

/-- The condition
`(status in ["feedback", "feedback_ideation"]) and state.get("human_comment")`
selecting the revision branch of `ideation_node`. -/
def ideation_feedback_branch (s : WorkflowState) : Bool :=
  ((ideation_status s == "feedback") || (ideation_status s == "feedback_ideation"))
    && optTruthy s.human_comment

/-- The message list `ideation_node` sends to the ideation model. -/
def ideation_messages (s : WorkflowState) : List Msg :=
  let user_message : Msg := ⟨Role.human, s.human_request⟩
  if ideation_feedback_branch s then
    user_message :: (s.messages ++ [⟨Role.system, ideation_revision_prompt (s.human_comment.getD "")⟩])
  else
    [⟨Role.system, IDEATION_GENERIC_PROMPT⟩, user_message]

/-- `ideation_node` (src/workflow/graph.py lines 81-154).  `invoke` is the
ideation model; its failure is not caught and propagates. -/
def ideation_node (invoke : List Msg → Except String String) (s : WorkflowState) :
    Except String WorkflowState :=
  match invoke (ideation_messages s) with
  | .error e => .error e
  | .ok response =>
    let all_messages := s.messages ++ [⟨Role.ai, response⟩]
    let ideation_brief :=
      match pySplitOnce response "GENERATION_PROMPT:" with
      | some rest => pyStrip rest
      | none => response
    .ok { s with
          messages := all_messages
          assistant_response := response
          ideation_brief := some ideation_brief }

/-- `feedback_ideation`: a no-op interrupt placeholder (no state update). -/
def feedback_ideation (s : WorkflowState) : WorkflowState := s

/-- `content_generation_node` (src/workflow/graph.py lines 162-191);
`chat` is the content agent, its failure propagates. -/
def content_generation_node (chat : String → Except String String) (s : WorkflowState) :
    Except String WorkflowState :=
  let brief := pyOptOr s.ideation_brief (pyOrStr s.human_request "")
  match chat (content_user_input brief) with
  | .error e => .error e
  | .ok result =>
    .ok { s with
          messages := s.messages ++ [⟨Role.ai, result⟩]
          assistant_response := result
          content_result := some result }

/-- `policy_review_node` (src/workflow/graph.py lines 194-219);
`chat` is the policy agent, its failure propagates. -/
def policy_review_node (chat : String → Except String String) (s : WorkflowState) :
    Except String WorkflowState :=
  let content := contentOrFallback s
  match chat (policy_prompt content) with
  | .error e => .error e
  | .ok review =>
    .ok { s with
          messages := s.messages ++ [⟨Role.ai, "[PolicyComplianceAgent Report]\n" ++ review⟩]
          assistant_response := review
          compliance_reports := some (dictSet (s.compliance_reports.getD []) "policy" review) }

/-- `design_review_node` (src/workflow/graph.py lines 222-247). -/
def design_review_node (chat : String → Except String String) (s : WorkflowState) :
    Except String WorkflowState :=
  let content := contentOrFallback s
  match chat (design_prompt content) with
  | .error e => .error e
  | .ok review =>
    .ok { s with
          messages := s.messages ++ [⟨Role.ai, "[DesignComplianceAgent Report]\n" ++ review⟩]
          assistant_response := review
          compliance_reports := some (dictSet (s.compliance_reports.getD []) "design" review) }

/-- `caption_generation_node` (src/workflow/graph.py lines 250-277). -/
def caption_generation_node (chat : String → Except String String) (s : WorkflowState) :
    Except String WorkflowState :=
  let content := contentOrFallback s
  match chat (caption_prompt content) with
  | .error e => .error e
  | .ok caption_out =>
    .ok { s with
          messages := s.messages ++ [⟨Role.ai, "[CaptionAgent Output]\n" ++ caption_out⟩]
          assistant_response := caption_out
          compliance_reports := some (dictSet (s.compliance_reports.getD []) "caption" caption_out) }

/-- `node_to_terminate` (src/workflow/graph.py lines 503-513). -/
def node_to_terminate (s : WorkflowState) : WorkflowState :=
  let final_msg := "Thank you for using our service."
  { s with
    messages := s.messages ++ [⟨Role.ai, final_msg⟩]
    assistant_response := final_msg }

/-- `feedback_content`: a no-op interrupt placeholder (no state update). -/
def feedback_content (s : WorkflowState) : WorkflowState := s

/- ## Social posting nodes (src/workflow/graph.py lines 280-495) -/

/-- The external collaborators used by `social_post_node` and
`linkedin_post_node`: the media download (`requests.get` to a temp file,
argument = url, result = local path), the platform posting functions from
src/integration, and `create_caption` from src/tools. -/
structure SocialCollab where
  download : String → Except String String
  post_linkedin_image : String → String → Except String String
  post_linkedin_video : String → String → String → Except String String
  post_facebook_image : String → String → Except String String
  post_facebook_video : String → String → String → Except String String
  post_to_instagram_local : String → String → Except String String
  create_caption : String → String → Except String String

/-- The video-extension test
`any(ext in url.lower() for ext in [".mp4", ".mov", ".webm"])`. -/
def VIDEO_EXTS : List String := [".mp4", ".mov", ".webm"]

def isVideoUrl (url : String) : Bool :=
  VIDEO_EXTS.any (fun ext => strContains (pyLower url) ext)

/-- The local `extract_caption` helper of the posting nodes
(src/workflow/graph.py lines 292-303 and 439-452). -/
def extract_caption (text : Option String) : String :=
  match text with
  | none => "New post"
  | some t =>
    if t = "" then "New post"
    else if strContains t "CAPTION:" then
      let t2 := pyStrip ((pySplitOnce t "CAPTION:").getD "")
      let t3 := if strContains t2 "HASHTAGS:" then pyStrip (pyBeforeFirst t2 "HASHTAGS:") else t2
      if t3 = "" then "New post" else t3
    else
      let t4 := pyTake 500 (pyStrip t)
      if t4 = "" then "New post" else t4

/-- The caption text the posting nodes read from
`(state.get("compliance_reports") or {}).get("caption")`. -/
def social_caption (s : WorkflowState) : String :=
  extract_caption ((s.compliance_reports.getD []).lookup "caption")

/-- The keyword filter of the local `summarize` helper inside
`build_caption_prompt`. -/
def SUMMARY_KEYWORDS : List String :=
  ["recommendation", "notes", "issue", "improv", "optimi"]

/-- The picking loop of `summarize`: collect matching lines, stop at 3. -/
def summarizePick (lines : List String) (picks : List String) : List String :=
  match lines with
  | [] => picks
  | l :: rest =>
    let picks2 :=
      if SUMMARY_KEYWORDS.any (fun k => strContains (pyLower l) k) then picks ++ [l] else picks
    if 3 ≤ picks2.length then picks2 else summarizePick rest picks2

/-- The local `summarize(report, max_lines=3)` helper of
`build_caption_prompt` (src/workflow/graph.py lines 344-355). -/
def summarize (report : Option String) : String :=
  match report with
  | none => ""
  | some r =>
    if r = "" then ""
    else
      let lines :=
        ((splitOnChar (Char.ofNat 10) r.data).map (fun cs => pyStrip (String.mk cs))).filter
          (fun l => !(l == ""))
      String.intercalate "\n" (summarizePick lines [])

/-- The considerations block of `build_caption_prompt`
(src/workflow/graph.py lines 357-368). -/
def caption_considerations (s : WorkflowState) : String :=
  let comp := s.compliance_reports.getD []
  let pol :=
    if optTruthy (comp.lookup "policy") then
      let sm := summarize (comp.lookup "policy")
      if sm = "" then [] else ["Policy notes:\n" ++ sm]
    else []
  let des :=
    if optTruthy (comp.lookup "design") then
      let sm := summarize (comp.lookup "design")
      if sm = "" then [] else ["Design notes:\n" ++ sm]
    else []
  pyStrip (String.intercalate "\n\n" (pol ++ des))

/-- The local `build_caption_prompt` helper of `social_post_node`
(src/workflow/graph.py lines 336-384). -/
def build_caption_prompt (cfg : GenerationConfig) (s : WorkflowState)
    (platform media_url : String) : String :=
  let base := pyOptOr s.ideation_brief (pyOrStr s.human_request "")
  let content_type := if isVideoUrl media_url then "video" else "image"
  let consider_text := caption_considerations s
  "Write a " ++ platform ++ " caption for the following " ++ content_type ++
  ".\nContent brief:\n" ++ base ++
  "\n\nConstraints:\n- Tone/style: " ++ cfg.caption_style ++
  "\n- Captions enabled: " ++ pyBool cfg.enable_captions ++
  "\n- Video: aspect_ratio=" ++ cfg.video_aspect ++ " resolution=" ++ cfg.video_resolution ++
  "\n- Image: size=" ++ cfg.image_size ++ " quality=" ++ cfg.image_quality ++
  "\n" ++ (if consider_text = "" then "" else "Considerations:\n" ++ consider_text) ++
  "\n\nRequirements:\n- Follow " ++ platform ++
  " conventions (hashtags/emojis limits)\n- Clear CTA if suitable\n- Avoid policy/design issues above"

/-- The try-block of `social_post_node` that determines the platform,
builds the caption prompt and performs the platform-specific post
(src/workflow/graph.py lines 324-408): any raised error is the
`Except.error` result, to be caught by the node. -/
def socialTry (c : SocialCollab) (cfg : GenerationConfig) (s : WorkflowState)
    (url action : String) (is_video : Bool) (caption_text local_path : String) :
    Except String String :=
  match
    (if action = "post_social_linkedin" ∨ action = "post_linkedin" then .ok "linkedin"
     else if action = "post_social_facebook" then .ok "facebook"
     else if action = "post_social_instagram" then .ok "instagram"
     else .error ("Unknown social post action: " ++ action) : Except String String) with
  | .error e => .error e
  | .ok platform =>
    let cprompt := build_caption_prompt cfg s platform url
    if platform = "linkedin" then
      if is_video then c.post_linkedin_video cprompt local_path "Video"
      else c.post_linkedin_image cprompt local_path
    else if platform = "facebook" then
      if is_video then c.post_facebook_video cprompt local_path "Video"
      else c.post_facebook_image cprompt local_path
    else
      if is_video then .error "Instagram video posting not supported in v1 (image only)."
      else
        match (if caption_text = "" ∨ caption_text = "New post"
               then c.create_caption cprompt "instagram"
               else .ok caption_text : Except String String) with
        | .error e => .error e
        | .ok cap => c.post_to_instagram_local local_path cap

/-- The success message of `social_post_node`. -/
def social_success_out (action r : String) : String :=
  "Social Post Result (" ++ action ++ "): " ++ r

/-- The caught-failure message of `social_post_node`. -/
def social_fail_out (action e : String) : String :=
  "Social post failed (" ++ action ++ "): " ++ e

/-- `social_post_node` (src/workflow/graph.py lines 280-422).  Both the
download block and the posting block catch every exception and fold it
into the visible output, so the node itself is a total function. -/
def social_post_node (c : SocialCollab) (cfg : GenerationConfig) (s : WorkflowState) :
    WorkflowState :=
  match c.download (contentOrFallback s) with
  | .error e =>
    let out := "Social post aborted (download failed): " ++ e
    { s with
      messages := s.messages ++ [⟨Role.ai, out⟩]
      assistant_response := out }
  | .ok local_path =>
    let out :=
      match socialTry c cfg s (contentOrFallback s) (normAction s.status)
              (isVideoUrl (contentOrFallback s)) (social_caption s) local_path with
      | .ok r => social_success_out (normAction s.status) r
      | .error e => social_fail_out (normAction s.status) e
    { s with
      messages := s.messages ++ [⟨Role.ai, out⟩]
      assistant_response := out
      compliance_reports := some (dictSet (s.compliance_reports.getD []) "social" out) }

/-- `linkedin_post_node` (src/workflow/graph.py lines 425-495); like
`social_post_node` it catches both the download and the posting failure. -/
def linkedin_post_node (c : SocialCollab) (s : WorkflowState) : WorkflowState :=
  let is_video := isVideoUrl (contentOrFallback s)
  match c.download (contentOrFallback s) with
  | .error e =>
    let err := "LinkedIn post aborted (download failed): " ++ e
    { s with
      messages := s.messages ++ [⟨Role.ai, err⟩]
      assistant_response := err }
  | .ok local_path =>
    let out :=
      match (if is_video then c.post_linkedin_video (social_caption s) local_path "Video"
             else c.post_linkedin_image (social_caption s) local_path) with
      | .ok r => "LinkedIn Post Result: " ++ r
      | .error e => "LinkedIn post failed: " ++ e
    { s with
      messages := s.messages ++ [⟨Role.ai, out⟩]
      assistant_response := out
      compliance_reports := some (dictSet (s.compliance_reports.getD []) "linkedin" out) }

/- ## Web API layer (src/webapi/models.py and src/webapi/api.py) -/

/-- `StartRequest` (src/webapi/models.py): a single required string field. -/
structure StartRequest where
  human_request : String
  deriving DecidableEq, Repr

/-- The closed action set of `ResumeRequest.action`
(the `Literal` type in src/webapi/models.py lines 11-22). -/
def ALLOWED_ACTIONS : List String :=
  ["approve_ideation", "feedback_ideation", "approve_content", "feedback_content",
   "run_policy", "run_design", "run_caption", "post_linkedin",
   "post_social_facebook", "post_social_instagram"]

/-- `ResumeRequest` (src/webapi/models.py). -/
structure ResumeRequest where
  thread_id : String
  action : String
  human_comment : Option String
  deriving DecidableEq, Repr

/-- `GraphResponse` (src/webapi/models.py). -/
structure GraphResponse where
  thread_id : String
  run_status : String
  assistant_response : Option String
  deriving DecidableEq, Repr

/-- `ConfigPayload` (src/webapi/models.py).  The source field
`video_aspect_ratio` is embedded as `video_aspect`. -/
structure ConfigPayload where
  video_duration : Int
  video_aspect : String
  enable_captions : Bool
  caption_style : String
  image_size : String
  image_quality : String
  auto_compliance_check : Bool
  deriving DecidableEq, Repr

/-- Pydantic validation of a start body: the field must be present and be
a string; every string value (including the empty string) is accepted. -/
def validateStart (human_request : Option String) : Except String StartRequest :=
  match human_request with
  | none => .error "field required: human_request"
  | some s => .ok ⟨s⟩

/-- Pydantic validation of a resume body: the action must be one of the
`Literal` values, otherwise the request is rejected (HTTP 422) before the
handler runs. -/
def validateResume (tid action : String) (comment : Option String) :
    Except String ResumeRequest :=
  if action ∈ ALLOWED_ACTIONS then .ok ⟨tid, action, comment⟩
  else .error "422 Unprocessable Entity: action is not a permitted literal value"

/-- One entry of the in-memory `run_configs` map (src/webapi/api.py
line 13): the pending create or resume payload for a thread. -/
inductive RunConfig
  | start (human_request : String)
  | resume (action : String) (human_comment : Option String)
  deriving DecidableEq, Repr

/-- Python `run_configs[thread_id] = v` on the assoc-list model. -/
def rcSet (d : List (String × RunConfig)) (k : String) (v : RunConfig) :
    List (String × RunConfig) :=
  if d.any (fun p => p.1 == k) then d.map (fun p => if p.1 == k then (k, v) else p)
  else d ++ [(k, v)]

/-- A per-thread checkpoint of the LangGraph `MemorySaver`: the stored
`WorkflowState` together with the engine position (`state.next`). -/
structure Checkpoint where
  state : WorkflowState
  next : List String
  deriving DecidableEq, Repr

/-- The handler body of `POST /workflow/stream/create`
(src/webapi/api.py lines 16-27): store a pending start payload and answer
`run_status="pending"`.  `tid` is the freshly generated uuid. -/
def create_workflow_stream (cfgs : List (String × RunConfig)) (tid : String)
    (req : StartRequest) : List (String × RunConfig) × GraphResponse :=
  (rcSet cfgs tid (.start req.human_request), ⟨tid, "pending", none⟩)

/-- The handler body of `POST /workflow/stream/resume`
(src/webapi/api.py lines 30-45): store a pending resume payload and answer
`run_status="pending"`.  No session-existence or paused-state check is
performed. -/
def resume_workflow_stream (cfgs : List (String × RunConfig)) (req : ResumeRequest) :
    List (String × RunConfig) × GraphResponse :=
  (rcSet cfgs req.thread_id (.resume req.action req.human_comment),
   ⟨req.thread_id, "pending", none⟩)

/-- The create endpoint as seen by a client: pydantic validation of the
body followed by the handler.  Validation failure leaves `run_configs`
untouched. -/
def create_endpoint (cfgs : List (String × RunConfig)) (tid : String)
    (body : Option String) : Except String GraphResponse × List (String × RunConfig) :=
  match validateStart body with
  | .error e => (.error e, cfgs)
  | .ok req =>
    let p := create_workflow_stream cfgs tid req
    (.ok p.2, p.1)

/-- The resume endpoint as seen by a client: pydantic validation of the
body followed by the handler.  Validation failure leaves `run_configs`
and every checkpoint untouched; the handler itself never reads or writes
a checkpoint (only the later stream call does). -/
def resume_endpoint (cfgs : List (String × RunConfig))
    (ckpts : List (String × Checkpoint)) (tid action : String)
    (comment : Option String) :
    Except String GraphResponse × List (String × RunConfig) × List (String × Checkpoint) :=
  match validateResume tid action comment with
  | .error e => (.error e, cfgs, ckpts)
  | .ok req =>
    let p := resume_workflow_stream cfgs req
    (.ok p.2, p.1, ckpts)

/-- The state update a resume applies before streaming
(`graph.update_state(config, state_update)` in src/webapi/api.py
lines 124-127): set `status` to the action and set `human_comment` only
when one was supplied. -/
def resume_update (action : String) (comment : Option String) (s : WorkflowState) :
    WorkflowState :=
  let s1 := { s with status := some action }
  match comment with
  | some c => { s1 with human_comment := some c }
  | none => s1

/- ## Event streamer (src/webapi/api.py lines 99-179) -/

/-- The events emitted over SSE by `event_generator`. -/
inductive StreamEvent
  | marker (etype thread_id : String)
  | token (content : String)
  | status (value : String)
  | error (message : String)
  deriving DecidableEq, Repr

/-- The `STREAM_NODES` set of src/webapi/api.py lines 137-145. -/
def STREAM_NODES : List String :=
  ["ideation_node", "content_generation_node", "policy_review_node",
   "design_review_node", "caption_generation_node", "linkedin_post_node",
   "social_post_node"]

/-- One advance-until-pause-or-finish cycle of the engine as the streamer
observes it: a sequence of `(langgraph_node, content)` message pairs in
execution order, followed either by the final `state.next` of the
checkpoint or by an engine-internal fault. -/
inductive CycleRun
  | ok (msgs : List (String × String)) (next : List String)
  | fault (msgs : List (String × String)) (err : String)
  deriving DecidableEq, Repr

/-- The token-emitting loop over `graph.stream(..., stream_mode="messages")`:
a token event is yielded exactly for messages of the `STREAM_NODES`. -/
def token_events : List (String × String) → List StreamEvent
  | [] => []
  | (n, c) :: rest =>
    (if n ∈ STREAM_NODES then [StreamEvent.token c] else []) ++ token_events rest

/-- The terminal status computation of `event_generator`
(src/webapi/api.py lines 156-168): which interrupt node is pending next,
else `finished`. -/
def terminal_status (next : List String) : String :=
  if next.isEmpty then "finished"
  else if "feedback_ideation" ∈ next then "ideation_feedback"
  else if "feedback_content" ∈ next then "content_feedback"
  else "finished"

/-- `event_generator` (src/webapi/api.py lines 130-177): the initial
start/resume marker, the token loop, then exactly one status event — or,
when the cycle faults, an error event in place of the status event. -/
def event_generator (etype tid : String) (run : CycleRun) : List StreamEvent :=
  StreamEvent.marker etype tid ::
    match run with
    | .ok msgs next => token_events msgs ++ [StreamEvent.status (terminal_status next)]
    | .fault msgs err => token_events msgs ++ [StreamEvent.error err]

/- ## The config endpoint (src/webapi/api.py lines 66-96) -/

/-- The handler body of `POST /config` (`set_config`): reset an
out-of-range duration to 10 and store the remaining fields unchanged. -/
def set_config (payload : ConfigPayload) : GenerationConfig :=
  let vd := if payload.video_duration < 5 ∨ payload.video_duration > 60
            then 10 else payload.video_duration
  { video_duration := vd
    video_aspect := payload.video_aspect
    enable_captions := payload.enable_captions
    caption_style := payload.caption_style
    image_size := payload.image_size
    image_quality := payload.image_quality
    auto_compliance_check := payload.auto_compliance_check }

/- ## Concrete fixtures used by the closed theorems -/

/-- A freshly created session state (Scenario 1 of the spec). -/
def demo_state : WorkflowState := initial_state "promote a spring sale"

/-- The demo session after a successful ideation reply "a fine draft"
(the reply contains no GENERATION_PROMPT marker, so it is also the brief). -/
def demo_draft_state : WorkflowState :=
  { demo_state with
    messages := [⟨Role.ai, "a fine draft"⟩]
    assistant_response := "a fine draft"
    ideation_brief := some "a fine draft" }

/-- The demo session resumed with `feedback_content` and a comment. -/
def fb_content_state : WorkflowState :=
  { demo_state with status := some "feedback_content", human_comment := some "make it warmer" }

/-- The demo session resumed with `feedback_ideation` and a comment. -/
def fb_ideation_state : WorkflowState :=
  { demo_state with status := some "feedback_ideation", human_comment := some "add emojis" }

/-- The demo session resumed with `post_social_instagram` while the
artifact locator references a video. -/
def ig_video_state : WorkflowState :=
  { demo_state with
    status := some "post_social_instagram"
    content_result := some "http://cdn.example/x.mp4" }

/-- Social collaborators that all succeed. -/
def collab_ok : SocialCollab :=
  { download := fun _ => .ok "/tmp/media.mp4"
    post_linkedin_image := fun _ _ => .ok "posted"
    post_linkedin_video := fun _ _ _ => .ok "posted"
    post_facebook_image := fun _ _ => .ok "posted"
    post_facebook_video := fun _ _ _ => .ok "posted"
    post_to_instagram_local := fun _ _ => .ok "posted"
    create_caption := fun _ _ => .ok "caption" }

/-- Social collaborators whose media download fails. -/
def collab_down : SocialCollab :=
  { collab_ok with download := fun _ => .error "404 not found" }

/-- Does an `Except`-valued node result preserve `human_request`?
(vacuously true for a propagated failure). -/
def okPreserves (e : Except String WorkflowState) (s : WorkflowState) : Bool :=
  match e with
  | .ok t => t.human_request == s.human_request
  | .error _ => true

/-- A config-update payload with an out-of-range duration. -/
def demo_payload : ConfigPayload :=
  ⟨100, "9:16", true, "casual", "1792x1024", "standard", true⟩

/-- A config-update payload with an in-range duration. -/
def demo_payload_ok : ConfigPayload :=
  ⟨30, "1:1", false, "creative", "1024x1792", "hd", false⟩

/- ## Claim theorems -/

/-- C1: the router at the second interrupt point is a total function over
the action label: `approve_content` routes to the terminate node,
`run_policy` / `run_design` / `run_caption` to the corresponding review or
caption node, each publish-platform action to the social posting node, and
every other label — the empty string and `None` included — falls through
to the ideation (Plan) node; every possible router result is a declared
conditional-edge target, so routing never yields "no route". -/
theorem c1_router_after_content_total :
    router_after_content (some "approve_content") = "node_to_terminate" ∧
    router_after_content (some "run_policy") = "policy_review_node" ∧
    router_after_content (some "run_design") = "design_review_node" ∧
    router_after_content (some "run_caption") = "caption_generation_node" ∧
    router_after_content (some "post_linkedin") = "social_post_node" ∧
    router_after_content (some "post_social_facebook") = "social_post_node" ∧
    router_after_content (some "post_social_instagram") = "social_post_node" ∧
    router_after_content (some "") = "ideation_node" ∧
    router_after_content none = "ideation_node" ∧
    (∀ st, normAction st ∉ KNOWN_CONTENT_ACTIONS → router_after_content st = "ideation_node") ∧
    (∀ st, router_after_content st ∈ FEEDBACK_CONTENT_EDGE_TARGETS) := by
  refine ⟨rfl, rfl, rfl, rfl, rfl, rfl, rfl, rfl, rfl, ?_, ?_⟩
  · intro st h
    simp only [router_after_content]
    split_ifs with h1 h2 h3 h4 h5 h6 h7
    · exact absurd (show normAction st ∈ KNOWN_CONTENT_ACTIONS by rw [h1]; decide) h
    · exact absurd (show normAction st ∈ KNOWN_CONTENT_ACTIONS by rw [h2]; decide) h
    · exact absurd (show normAction st ∈ KNOWN_CONTENT_ACTIONS by rw [h3]; decide) h
    · exact absurd (show normAction st ∈ KNOWN_CONTENT_ACTIONS by rw [h4]; decide) h
    · exact absurd (show normAction st ∈ KNOWN_CONTENT_ACTIONS by rw [h5]; decide) h
    · exact absurd (show normAction st ∈ KNOWN_CONTENT_ACTIONS by rw [h6]; decide) h
    · exact absurd (show normAction st ∈ KNOWN_CONTENT_ACTIONS by rw [h7]; decide) h
    · rfl
  · intro st
    simp only [router_after_content]
    split_ifs <;> decide

/-- Witness for C1: a free-text action is outside the known set and routes
to the ideation node; `approve_content` routes to the terminate node. -/
theorem c1_witness :
    (normAction (some "publish to mars please") ∉ KNOWN_CONTENT_ACTIONS ∧
     router_after_content (some "publish to mars please") = "ideation_node") ∧
    router_after_content (some "approve_content") = "node_to_terminate" := by
  refine ⟨⟨by decide, ?_⟩, c1_router_after_content_total.1⟩
  exact c1_router_after_content_total.2.2.2.2.2.2.2.2.2.1 (some "publish to mars please") (by decide)

/-- C2 counterexample: the claim says every failing collaborator call is
caught at the node boundary and converted into a textual error message in
`assistant_response`; but `policy_review_node` (cited by the claim) has no
try/except, so a failing policy-agent call propagates out of the node
instead of producing an updated state. -/
theorem c2_counterexample :
    policy_review_node (fun _ => Except.error "connection reset by peer") demo_state =
      Except.error "connection reset by peer" := rfl

/-- C2 (amended): collaborator failures are caught at the node boundary
only in the social posting node — a failing download or a failing platform
post is folded into `assistant_response`/history and the node still
returns a state — while in `policy_review_node` a collaborator failure
propagates out of the node unchanged. -/
theorem c2_failure_containment :
    (∀ chat s e, chat (policy_prompt (contentOrFallback s)) = Except.error e →
       policy_review_node chat s = Except.error e) ∧
    (∀ (c : SocialCollab) (cfg : GenerationConfig) (s : WorkflowState) (e : String),
       c.download (contentOrFallback s) = Except.error e →
       social_post_node c cfg s =
         { s with
           messages := s.messages ++ [⟨Role.ai, "Social post aborted (download failed): " ++ e⟩]
           assistant_response := "Social post aborted (download failed): " ++ e }) ∧
    (∀ (c : SocialCollab) (cfg : GenerationConfig) (s : WorkflowState) (path e : String),
       c.download (contentOrFallback s) = Except.ok path →
       socialTry c cfg s (contentOrFallback s) (normAction s.status)
         (isVideoUrl (contentOrFallback s)) (social_caption s) path = Except.error e →
       social_post_node c cfg s =
         { s with
           messages := s.messages ++ [⟨Role.ai, social_fail_out (normAction s.status) e⟩]
           assistant_response := social_fail_out (normAction s.status) e
           compliance_reports :=
             some (dictSet (s.compliance_reports.getD []) "social"
                    (social_fail_out (normAction s.status) e)) }) := by
  refine ⟨?_, ?_, ?_⟩
  · intro chat s e h
    simp only [policy_review_node]
    rw [h]
  · intro c cfg s e h
    simp only [social_post_node]
    rw [h]
  · intro c cfg s path e h1 h2
    simp only [social_post_node]
    rw [h1]
    dsimp only
    rw [h2]

/-- Witness for C2 (amended): a failing policy agent propagates; a failing
download is folded into the state; an unknown social action makes the
try-block fail and is folded into the state. -/
theorem c2_failure_containment_witness :
    policy_review_node (fun _ => Except.error "llm timeout") demo_state =
      Except.error "llm timeout" ∧
    social_post_node collab_down default_config demo_state =
      { demo_state with
        messages := [⟨Role.ai, "Social post aborted (download failed): 404 not found"⟩]
        assistant_response := "Social post aborted (download failed): 404 not found" } ∧
    social_post_node collab_ok default_config demo_state =
      { demo_state with
        messages := [⟨Role.ai, social_fail_out "" "Unknown social post action: "⟩]
        assistant_response := social_fail_out "" "Unknown social post action: "
        compliance_reports := some [("social", social_fail_out "" "Unknown social post action: ")] } :=
  ⟨c2_failure_containment.1 (fun _ => Except.error "llm timeout") demo_state "llm timeout" rfl,
   c2_failure_containment.2.1 collab_down default_config demo_state "404 not found" rfl,
   c2_failure_containment.2.2 collab_ok default_config demo_state "/tmp/media.mp4"
     "Unknown social post action: " rfl rfl⟩

/-- The token loop emits exactly the messages of observable nodes, in
execution order. -/
theorem token_events_eq (msgs : List (String × String)) :
    token_events msgs =
      (msgs.filter (fun m => decide (m.1 ∈ STREAM_NODES))).map
        (fun m => StreamEvent.token m.2) := by
  induction msgs with
  | nil => rfl
  | cons m rest ih =>
    by_cases h : m.1 ∈ STREAM_NODES <;>
      simp [token_events, List.filter_cons, h, ih]

/-- C3: a completed stream cycle emits exactly one start/resume marker
carrying the session id, then the token events of the observable
(`STREAM_NODES`) node executions in execution order, then exactly one
terminal status event — `ideation_feedback` when the engine is paused
before the ideation interrupt, `content_feedback` when paused before the
content interrupt, `finished` otherwise; a faulted cycle ends in an error
event in place of the status event. -/
theorem c3_stream_event_shape :
    (∀ etype tid msgs next,
       event_generator etype tid (CycleRun.ok msgs next) =
         StreamEvent.marker etype tid ::
           (msgs.filter (fun m => decide (m.1 ∈ STREAM_NODES))).map
             (fun m => StreamEvent.token m.2)
           ++ [StreamEvent.status (terminal_status next)]) ∧
    (∀ next, "feedback_ideation" ∈ next → terminal_status next = "ideation_feedback") ∧
    (∀ next, "feedback_ideation" ∉ next → "feedback_content" ∈ next →
       terminal_status next = "content_feedback") ∧
    (∀ next, "feedback_ideation" ∉ next → "feedback_content" ∉ next →
       terminal_status next = "finished") ∧
    (∀ etype tid msgs err,
       event_generator etype tid (CycleRun.fault msgs err) =
         StreamEvent.marker etype tid ::
           (msgs.filter (fun m => decide (m.1 ∈ STREAM_NODES))).map
             (fun m => StreamEvent.token m.2)
           ++ [StreamEvent.error err]) := by
  refine ⟨?_, ?_, ?_, ?_, ?_⟩
  · intro etype tid msgs next
    simp [event_generator, token_events_eq]
  · intro next h
    have hne : next ≠ [] := List.ne_nil_of_mem h
    simp [terminal_status, List.isEmpty_iff, hne, h]
  · intro next h1 h2
    have hne : next ≠ [] := List.ne_nil_of_mem h2
    simp [terminal_status, List.isEmpty_iff, hne, h1, h2]
  · intro next h1 h2
    by_cases he : next = [] <;> simp [terminal_status, List.isEmpty_iff, he, h1, h2]
  · intro etype tid msgs err
    simp [event_generator, token_events_eq]

/-- Witness for C3 at concrete cycles: a one-token cycle pausing at the
ideation interrupt, the three status values, and a faulted cycle. -/
theorem c3_witness :
    event_generator "resume" "t7"
        (CycleRun.ok [("ideation_node", "hello"), ("feedback_ideation", "")] ["feedback_ideation"]) =
      [StreamEvent.marker "resume" "t7", StreamEvent.token "hello",
       StreamEvent.status (terminal_status ["feedback_ideation"])] ∧
    terminal_status ["feedback_ideation"] = "ideation_feedback" ∧
    terminal_status ["feedback_content"] = "content_feedback" ∧
    terminal_status [] = "finished" ∧
    event_generator "start" "t8" (CycleRun.fault [] "checkpoint corrupt") =
      [StreamEvent.marker "start" "t8", StreamEvent.error "checkpoint corrupt"] := by
  refine ⟨?_,
    c3_stream_event_shape.2.1 ["feedback_ideation"] (by decide),
    c3_stream_event_shape.2.2.1 ["feedback_content"] (by decide) (by decide),
    c3_stream_event_shape.2.2.2.1 [] (by decide) (by decide), ?_⟩
  · exact (c3_stream_event_shape.1 "resume" "t7"
      [("ideation_node", "hello"), ("feedback_ideation", "")] ["feedback_ideation"]).trans (by decide)
  · exact (c3_stream_event_shape.2.2.2.2 "start" "t8" [] "checkpoint corrupt").trans (by decide)

/-- C4 counterexample: the claim says a resume targeting a session that is
not paused (for example an unknown session id) is rejected as a client
error before any engine advance; but the resume handler performs no check
at all — with an empty session table and an empty checkpoint store, a
resume for the unknown id "ghost-session" is accepted with a pending
acknowledgement and a pending run record is created. -/
theorem c4_counterexample :
    resume_endpoint [] [] "ghost-session" "approve_content" none =
      (Except.ok ⟨"ghost-session", "pending", none⟩,
       [("ghost-session", RunConfig.resume "approve_content" none)], []) := rfl

/-- C4 (amended): for every well-formed action the resume endpoint accepts
the request with a pending acknowledgement regardless of the session table
and checkpoint store contents — no unknown-session or not-paused check is
performed at resume time; checkpoints are untouched. -/
theorem c4_resume_always_pending (cfgs : List (String × RunConfig))
    (ckpts : List (String × Checkpoint)) (tid : String) (comment : Option String)
    (action : String) (h : action ∈ ALLOWED_ACTIONS) :
    resume_endpoint cfgs ckpts tid action comment =
      (Except.ok ⟨tid, "pending", none⟩,
       rcSet cfgs tid (RunConfig.resume action comment), ckpts) := by
  simp only [resume_endpoint, validateResume, if_pos h, resume_workflow_stream]

/-- Witness for C4 (amended): a `run_policy` resume on a session id absent
from the (empty) session table is still acknowledged as pending. -/
theorem c4_resume_always_pending_witness :
    ("run_policy" ∈ ALLOWED_ACTIONS) ∧
    resume_endpoint [] [] "t42" "run_policy" none =
      (Except.ok ⟨"t42", "pending", none⟩,
       [("t42", RunConfig.resume "run_policy" none)], []) := by
  refine ⟨by decide, ?_⟩
  exact (c4_resume_always_pending [] [] "t42" none "run_policy" (by decide)).trans rfl

/-- C5 counterexample: the claim says the comment is folded into the
language-model call whenever feedback routes execution back to the Plan
node, from either interrupt; but for the content-interrupt feedback action
(`feedback_content`, which does route back to the ideation node) the
ideation node ignores the comment entirely: the messages sent to the model
are identical with and without the comment, namely the generic prompt and
the original request. -/
theorem c5_counterexample :
    router_after_content (some "feedback_content") = "ideation_node" ∧
    ideation_messages fb_content_state =
      ideation_messages { fb_content_state with human_comment := none } ∧
    ideation_messages fb_content_state =
      [⟨Role.system, IDEATION_GENERIC_PROMPT⟩, ⟨Role.human, "promote a spring sale"⟩] :=
  ⟨rfl, rfl, rfl⟩

/-- C5 (amended): the comment is folded into the language-model call as a
revision system message only when the status is `feedback` or
`feedback_ideation` and a non-empty comment is present; when the status is
`feedback_content` the ideation node re-runs with the generic prompt and
the comment is ignored; in every case the history the node returns is the
input history plus the assistant reply only — the comment is never
appended verbatim to history.  Both feedback actions do route back to the
ideation node. -/
theorem c5_comment_folding :
    (∀ s ct, (ideation_status s = "feedback" ∨ ideation_status s = "feedback_ideation") →
       s.human_comment = some ct → ct ≠ "" →
       ideation_messages s =
         ⟨Role.human, s.human_request⟩ ::
           (s.messages ++ [⟨Role.system, ideation_revision_prompt ct⟩])) ∧
    (∀ s, ideation_status s = "feedback_content" →
       ideation_messages s =
         [⟨Role.system, IDEATION_GENERIC_PROMPT⟩, ⟨Role.human, s.human_request⟩]) ∧
    (∀ invoke s t, ideation_node invoke s = Except.ok t →
       t.messages = s.messages ++ [⟨Role.ai, t.assistant_response⟩]) ∧
    router_after_content (some "feedback_content") = "ideation_node" ∧
    router_after_ideation (some "feedback_ideation") = "ideation_node" := by
  refine ⟨?_, ?_, ?_, rfl, rfl⟩
  · intro s ct hst hc hne
    have hb : ideation_feedback_branch s = true := by
      rcases hst with h | h <;>
        simp [ideation_feedback_branch, optTruthy, hc, h, hne]
    simp [ideation_messages, hb, hc]
  · intro s hst
    have hb : ideation_feedback_branch s = false := by
      simp [ideation_feedback_branch, hst]
    simp [ideation_messages, hb]
  · intro invoke s t h
    simp only [ideation_node] at h
    cases hi : invoke (ideation_messages s) <;> rw [hi] at h
    · cases h
    · simp only [Except.ok.injEq] at h
      subst h
      rfl

/-- Witness for C5 (amended): at the ideation interrupt the comment is
folded into the revision prompt; at the content interrupt the generic
prompt is used; a successful ideation run appends only the reply to
history. -/
theorem c5_comment_folding_witness :
    ideation_messages fb_ideation_state =
      ⟨Role.human, "promote a spring sale"⟩ ::
        ([] ++ [⟨Role.system, ideation_revision_prompt "add emojis"⟩]) ∧
    ideation_messages fb_content_state =
      [⟨Role.system, IDEATION_GENERIC_PROMPT⟩, ⟨Role.human, "promote a spring sale"⟩] ∧
    demo_draft_state.messages =
      demo_state.messages ++ [⟨Role.ai, demo_draft_state.assistant_response⟩] :=
  ⟨c5_comment_folding.1 fb_ideation_state "add emojis" (Or.inr rfl) rfl (by decide),
   c5_comment_folding.2.1 fb_content_state rfl,
   c5_comment_folding.2.2.1 (fun _ => Except.ok "a fine draft") demo_state demo_draft_state (by rfl)⟩

/-- C6 counterexample: the claim says session creation with an empty
request text is rejected by structural validation and no session or
pending run request is created; but `StartRequest.human_request` is a bare
string field, so the empty string passes validation and the create handler
stores a pending start record and acknowledges it as pending. -/
theorem c6_counterexample :
    create_endpoint [] "t0" (some "") =
      (Except.ok ⟨"t0", "pending", none⟩, [("t0", RunConfig.start "")]) := rfl

/-- C6 (amended): structural validation only checks that the request field
is present and is a string; every string — the empty string included — is
accepted, a session with a pending run request is created for it, and the
session state is seeded with exactly that request.  Only a missing field
is rejected. -/
theorem c6_empty_request_accepted (cfgs : List (String × RunConfig)) (tid s : String) :
    create_endpoint cfgs tid (some s) =
      (Except.ok ⟨tid, "pending", none⟩, rcSet cfgs tid (RunConfig.start s)) ∧
    validateStart none = Except.error "field required: human_request" ∧
    (initial_state s).human_request = s :=
  ⟨rfl, rfl, rfl⟩

/-- C7: a resume whose action label is outside the closed action set is
rejected by validation (a client error) before the handler runs, and both
the pending-run table and every session checkpoint (WorkflowState plus
engine position) are exactly as before the call. -/
theorem c7_unknown_action_rejected (cfgs : List (String × RunConfig))
    (ckpts : List (String × Checkpoint)) (tid action : String) (comment : Option String)
    (h : action ∉ ALLOWED_ACTIONS) :
    resume_endpoint cfgs ckpts tid action comment =
      (Except.error "422 Unprocessable Entity: action is not a permitted literal value",
       cfgs, ckpts) := by
  simp only [resume_endpoint, validateResume, if_neg h]

/-- Witness for C7: the action "make_coffee" is outside the closed set and
is rejected with the session table and checkpoint store unchanged. -/
theorem c7_unknown_action_rejected_witness :
    ("make_coffee" ∉ ALLOWED_ACTIONS) ∧
    resume_endpoint [] [] "t1" "make_coffee" (some "please") =
      (Except.error "422 Unprocessable Entity: action is not a permitted literal value",
       [], []) :=
  ⟨by decide, c7_unknown_action_rejected [] [] "t1" "make_coffee" (some "please") (by decide)⟩

/-- C8: `human_request` is seeded once at session creation and never
modified afterwards — every node of the graph and the resume state-update
return a state whose `human_request` equals the input state's (for the
fallible nodes, whenever they return a state at all). -/
theorem c8_request_immutable :
    (∀ r, (initial_state r).human_request = r) ∧
    (∀ invoke s, okPreserves (ideation_node invoke s) s = true) ∧
    (∀ chat s, okPreserves (content_generation_node chat s) s = true) ∧
    (∀ chat s, okPreserves (policy_review_node chat s) s = true) ∧
    (∀ chat s, okPreserves (design_review_node chat s) s = true) ∧
    (∀ chat s, okPreserves (caption_generation_node chat s) s = true) ∧
    (∀ c cfg s, (social_post_node c cfg s).human_request = s.human_request) ∧
    (∀ c s, (linkedin_post_node c s).human_request = s.human_request) ∧
    (∀ s, (feedback_ideation s).human_request = s.human_request) ∧
    (∀ s, (feedback_content s).human_request = s.human_request) ∧
    (∀ s, (node_to_terminate s).human_request = s.human_request) ∧
    (∀ a c s, (resume_update a c s).human_request = s.human_request) := by
  refine ⟨fun r => rfl, ?_, ?_, ?_, ?_, ?_, ?_, ?_, fun s => rfl, fun s => rfl,
    fun s => rfl, ?_⟩
  · intro invoke s
    cases h : invoke (ideation_messages s) <;> simp [ideation_node, okPreserves, h]
  · intro chat s
    cases h : chat (content_user_input (pyOptOr s.ideation_brief (pyOrStr s.human_request ""))) <;>
      simp [content_generation_node, okPreserves, h]
  · intro chat s
    cases h : chat (policy_prompt (contentOrFallback s)) <;>
      simp [policy_review_node, okPreserves, h]
  · intro chat s
    cases h : chat (design_prompt (contentOrFallback s)) <;>
      simp [design_review_node, okPreserves, h]
  · intro chat s
    cases h : chat (caption_prompt (contentOrFallback s)) <;>
      simp [caption_generation_node, okPreserves, h]
  · intro c cfg s
    cases h : c.download (contentOrFallback s) <;> simp [social_post_node, h]
  · intro c s
    cases h : c.download (contentOrFallback s) <;> simp [linkedin_post_node, h]
  · intro a c s
    cases c <;> rfl

/-- C9: resuming a content-interrupt pause with the publish-to-Instagram
action while the artifact locator references a video makes the social
posting node catch the platform restriction and put the failure message
into `assistant_response`/history instead of posting; the graph then
returns to the content interrupt (the unconditional edge of the node),
where the terminal status is again `content_feedback`, and the state —
`human_request` included — is otherwise intact, so the session stays
usable. -/
theorem c9_instagram_video_restriction (c : SocialCollab) (cfg : GenerationConfig)
    (s : WorkflowState) (path : String)
    (hact : normAction s.status = "post_social_instagram")
    (hvid : isVideoUrl (contentOrFallback s) = true)
    (hdl : c.download (contentOrFallback s) = Except.ok path) :
    social_post_node c cfg s =
      { s with
        messages := s.messages ++
          [⟨Role.ai, social_fail_out "post_social_instagram"
              "Instagram video posting not supported in v1 (image only)."⟩]
        assistant_response := social_fail_out "post_social_instagram"
          "Instagram video posting not supported in v1 (image only)."
        compliance_reports :=
          some (dictSet (s.compliance_reports.getD []) "social"
                 (social_fail_out "post_social_instagram"
                   "Instagram video posting not supported in v1 (image only).")) } ∧
    (social_post_node c cfg s).human_request = s.human_request ∧
    static_edges.lookup "social_post_node" = some "feedback_content" ∧
    terminal_status ["feedback_content"] = "content_feedback" := by
  have htry : socialTry c cfg s (contentOrFallback s) (normAction s.status)
      (isVideoUrl (contentOrFallback s)) (social_caption s) path =
      Except.error "Instagram video posting not supported in v1 (image only)." := by
    rw [hact, hvid]
    rfl
  have h1 : social_post_node c cfg s =
      { s with
        messages := s.messages ++
          [⟨Role.ai, social_fail_out "post_social_instagram"
              "Instagram video posting not supported in v1 (image only)."⟩]
        assistant_response := social_fail_out "post_social_instagram"
          "Instagram video posting not supported in v1 (image only)."
        compliance_reports :=
          some (dictSet (s.compliance_reports.getD []) "social"
                 (social_fail_out "post_social_instagram"
                   "Instagram video posting not supported in v1 (image only).")) } := by
    simp only [social_post_node]
    rw [hdl]
    dsimp only
    rw [htry, hact]
  refine ⟨h1, ?_, by decide, by decide⟩
  rw [h1]

/-- Witness for C9 at a concrete session: an instagram publish resume on a
`.mp4` artifact with succeeding collaborators. -/
theorem c9_witness :
    social_post_node collab_ok default_config ig_video_state =
      { ig_video_state with
        messages := [⟨Role.ai, social_fail_out "post_social_instagram"
            "Instagram video posting not supported in v1 (image only)."⟩]
        assistant_response := social_fail_out "post_social_instagram"
          "Instagram video posting not supported in v1 (image only)."
        compliance_reports := some [("social", social_fail_out "post_social_instagram"
          "Instagram video posting not supported in v1 (image only).")] } ∧
    terminal_status ["feedback_content"] = "content_feedback" :=
  ⟨(c9_instagram_video_restriction collab_ok default_config ig_video_state "/tmp/media.mp4"
      rfl rfl rfl).1,
   (c9_instagram_video_restriction collab_ok default_config ig_video_state "/tmp/media.mp4"
      rfl rfl rfl).2.2.2⟩

/-- C10: a submitted `video_duration` outside [5, 60] is stored as exactly
10 — the module default, not the nearest range bound; an in-range duration
is stored unchanged; all remaining submitted fields are stored unchanged
in both cases. -/
theorem c10_video_duration_guardrail (p : ConfigPayload) :
    ((p.video_duration < 5 ∨ p.video_duration > 60) → (set_config p).video_duration = 10) ∧
    (5 ≤ p.video_duration → p.video_duration ≤ 60 →
       (set_config p).video_duration = p.video_duration) ∧
    default_config.video_duration = 10 ∧
    (set_config p).video_aspect = p.video_aspect ∧
    (set_config p).enable_captions = p.enable_captions ∧
    (set_config p).caption_style = p.caption_style ∧
    (set_config p).image_size = p.image_size ∧
    (set_config p).image_quality = p.image_quality ∧
    (set_config p).auto_compliance_check = p.auto_compliance_check := by
  refine ⟨?_, ?_, rfl, rfl, rfl, rfl, rfl, rfl, rfl⟩
  · intro h
    simp [set_config, if_pos h]
  · intro h1 h2
    have hc : ¬ (p.video_duration < 5 ∨ p.video_duration > 60) := by
      push_neg
      exact ⟨h1, h2⟩
    simp [set_config, if_neg hc]

/-- Witness for C10: duration 100 is stored as 10 (not clamped to 60)
while the other fields survive; duration 30 is stored unchanged. -/
theorem c10_witness :
    ((demo_payload.video_duration < 5 ∨ demo_payload.video_duration > 60) ∧
     (set_config demo_payload).video_duration = 10 ∧
     (set_config demo_payload).video_aspect = "9:16") ∧
    (5 ≤ demo_payload_ok.video_duration ∧ demo_payload_ok.video_duration ≤ 60 ∧
     (set_config demo_payload_ok).video_duration = 30) := by
  refine ⟨⟨Or.inr (by decide), ?_, ?_⟩, by decide, by decide, ?_⟩
  · exact (c10_video_duration_guardrail demo_payload).1 (Or.inr (by decide))
  · exact ((c10_video_duration_guardrail demo_payload).2.2.2.1).trans rfl
  · exact ((c10_video_duration_guardrail demo_payload_ok).2.1 (by decide) (by decide)).trans rfl

end ContentWorkflow
